import Mathlib

/-!
Shallow embedding of `src/apix-gpio-example/main.c` (Digi libdigiapix GPIO
example application) together with proofs about the claims of its
specification.

The program under verification is a single C file.  The external library
`libdigiapix` is not part of the repository; where its behaviour matters it
is modelled as an abstract parameter (the alias mapping of
`ldx_gpio_get_kernel_number`, the success/failure of the request calls, the
result stream of the blocking waits), exactly the degrees of freedom the
example's control flow reacts to.
-/

namespace ApixGpio

/-! ## Constants from main.c (lines 27-29) and limits.h (LP64 model) -/

def TEST_LOOPS : Nat := 6

def DEFAULT_USER_LED_ALIAS : String := "USER_LED"

def DEFAULT_USER_BUTTON_ALIAS : String := "USER_BUTTON"

/-- `LONG_MAX` for the 64-bit `long` used by `strtol`. -/
def LONG_MAX : Int := 2 ^ 63 - 1

/-- `LONG_MIN` for the 64-bit `long` used by `strtol`. -/
def LONG_MIN : Int := -(2 ^ 63)

/-- `INT_MAX` for the 32-bit `int` return type of `parse_argument`. -/
def INT_MAX : Int := 2 ^ 31 - 1

/-- `INT_MIN` for the 32-bit `int` return type of `parse_argument`. -/
def INT_MIN : Int := -(2 ^ 31)

/-! ## GPIO value model (gpio_value_t: GPIO_LOW = 0, GPIO_HIGH = 1) -/

inductive GpioValue
  | low
  | high
  deriving DecidableEq, Repr

/-- The toggle written by both the blocking loop (line 206) and the callback
(line 140): `value ? GPIO_LOW : GPIO_HIGH`. -/
def toggle : GpioValue → GpioValue
  | .low => .high
  | .high => .low

/-- Result of `ldx_gpio_wait_interrupt` (gpio_irq_error_t): the code only
distinguishes `GPIO_IRQ_ERROR_NONE` from everything else (line 204). -/
inductive GpioIrqError
  | success
  | timeout
  | failure
  deriving DecidableEq, Repr

/-! ## strtol model (C99 contract for base 10, LP64 long) -/

/-- C `isspace` in the "C" locale: the six standard whitespace characters. -/
def isSpaceC (c : Char) : Bool :=
  c = ' ' || c = '\t' || c = '\n' || c = (Char.ofNat 11) || c = (Char.ofNat 12) || c = '\r'

/-- Accumulate the value of a base-10 digit string. -/
def digitsToNat (ds : List Char) : Nat :=
  ds.foldl (fun a c => a * 10 + (c.toNat - '0'.toNat)) 0

structure StrtolResult where
  /-- The returned `long`: the parsed value, clamped to `LONG_MAX`/`LONG_MIN`
  on range error. -/
  value : Int
  /-- Whether `errno` was set to `ERANGE`. -/
  erange : Bool
  /-- Whether a conversion was performed, i.e. `endptr != nptr` afterwards.
  Per C99 7.20.1.4, if the subject sequence is empty or has no digit,
  `*endptr = nptr`. -/
  converted : Bool
  /-- The characters from `*endptr` onwards (the unconsumed suffix). -/
  rest : List Char
  deriving DecidableEq, Repr

/-- The returned `long` of a performed conversion, clamped with `ERANGE`
when the mathematical value does not fit (C99 7.20.1.4p8). -/
def strtolClamp (v : Int) (rest : List Char) : StrtolResult :=
  if LONG_MAX < v then
    { value := LONG_MAX, erange := true, converted := true, rest := rest }
  else if v < LONG_MIN then
    { value := LONG_MIN, erange := true, converted := true, rest := rest }
  else
    { value := v, erange := false, converted := true, rest := rest }

/-- `strtol(s, &endptr, 10)` on a 64-bit `long`: skip whitespace, read an
optional sign, read base-10 digits; no digit means no conversion. -/
def strtol10 (s : List Char) : StrtolResult :=
  let s1 := s.dropWhile isSpaceC
  let sign : Int := if s1.head? = some '-' then -1 else 1
  let s2 : List Char :=
    if s1.head? = some '-' ∨ s1.head? = some '+' then s1.tail else s1
  let ds := s2.takeWhile Char.isDigit
  if ds.isEmpty then
    { value := 0, erange := false, converted := false, rest := s }
  else
    strtolClamp (sign * (digitsToNat ds : Int)) (s2.dropWhile Char.isDigit)

/-- Two's-complement conversion of a `long` value to `int`, the
implementation-defined narrowing on `return value;` (line 125, gcc
behaviour). -/
def wrapToInt (v : Int) : Int :=
  let m := v % 2 ^ 32
  if m < 2 ^ 31 then m else m - 2 ^ 32

/-! ## parse_argument (main.c lines 110-126)

The alias mapping of `ldx_gpio_get_kernel_number` (library, not in the
repository) is an abstract parameter `aliasMap : String → Int`; the library
contract is that it returns the configured line number, or `-1` when the
alias is unknown. -/

/-- `parse_argument(argv)`: `strtol` base 10; `ERANGE` (the only `errno`
strtol can set here, having been cleared at line 115) returns `-1`;
`endptr == argv` (no conversion) falls back to the alias lookup on the whole
string; otherwise the parsed `long` is returned through the `int` return
type. -/
def parse_argument (aliasMap : String → Int) (argv : String) : Int :=
  let r := strtol10 argv.data
  if r.erange then -1
  else if !r.converted then aliasMap argv
  else wrapToInt r.value

/-! ## Argument resolution in main (lines 156-167) -/

/-- The `argc` dispatch of `main`: `argv` here is the argument list without
the program name, so C's `argc` is `argv.length + 1`.  `none` is the
`usage_and_exit(name, EXIT_FAILURE)` branch. -/
def resolve_args (aliasMap : String → Int) (argv : List String) :
    Option (Int × Int) :=
  if argv.length + 1 = 1 then
    some (parse_argument aliasMap DEFAULT_USER_BUTTON_ALIAS,
          parse_argument aliasMap DEFAULT_USER_LED_ALIAS)
  else if argv.length + 1 = 3 then
    some (parse_argument aliasMap (argv.getD 0 ""),
          parse_argument aliasMap (argv.getD 1 ""))
  else
    none

/-! ## Spec-side definition: valid base-10 numeric strings

Used only to state claim C1 ("for every valid base-10 numeric string");
a string is an optional sign followed by at least one digit and nothing
else, denoting the signed value of its digits. -/

/-- The integer denoted by a string that is entirely an optional sign plus
decimal digits; `none` if the string is not of that shape. -/
def decimalValue (s : String) : Option Int :=
  let cs := s.data
  let sign : Int := if cs.head? = some '-' then -1 else 1
  let ds : List Char :=
    if cs.head? = some '-' ∨ cs.head? = some '+' then cs.tail else cs
  if ds ≠ [] ∧ ds.all Char.isDigit then some (sign * (digitsToNat ds : Int))
  else none

/-! ## Blocking interrupt phase (main.c lines 203-209)

The loop body is driven by the stream of `ldx_gpio_wait_interrupt` results
(library behaviour, abstract).  On `GPIO_IRQ_ERROR_NONE` the output value is
toggled and written with `ldx_gpio_set_value`; on any other result nothing
happens and the loop simply continues with the next iteration. -/

structure BlockState where
  /-- The local `output_value` of `main` (starts at `GPIO_LOW`, line 152). -/
  output_value : GpioValue
  /-- Trace of values passed to `ldx_gpio_set_value(gpio_output, _)`. -/
  writes : List GpioValue
  /-- Number of `ldx_gpio_wait_interrupt` calls made. -/
  waitCalls : Nat
  deriving DecidableEq, Repr

/-- One iteration of the `for` loop at lines 203-209, given that iteration's
wait result. -/
def blocking_iter (s : BlockState) (w : GpioIrqError) : BlockState :=
  if w = .success then
    let v := toggle s.output_value
    { output_value := v, writes := s.writes ++ [v], waitCalls := s.waitCalls + 1 }
  else
    { s with waitCalls := s.waitCalls + 1 }

/-- The whole blocking phase: the loop runs over exactly the given list of
wait results (one per iteration), with no early exit. -/
def blocking_phase (ws : List GpioIrqError) (s : BlockState) : BlockState :=
  ws.foldl blocking_iter s

/-! ## Interrupt callback and asynchronous phase (lines 133-147, 216-236) -/

/-- `struct gpio_interrupt_cb_data` (lines 34-38); the `gpio` pointer field
always holds `gpio_output` and is left implicit. -/
structure GpioInterruptCbData where
  value : GpioValue
  remaining_loops : Int
  deriving DecidableEq, Repr

/-- `gpio_interrupt_cb` (lines 133-147): toggle `data->value`, write it to
the output line (the written value is returned alongside the new state),
and decrement `data->remaining_loops` by one. -/
def gpio_interrupt_cb (data : GpioInterruptCbData) :
    GpioInterruptCbData × GpioValue :=
  let v := toggle data.value
  ({ value := v, remaining_loops := data.remaining_loops - 1 }, v)

/-- `n` successive invocations of the callback: final state plus the trace
of values written to the output line. -/
def cbIter : Nat → GpioInterruptCbData → GpioInterruptCbData × List GpioValue
  | 0, d => (d, [])
  | n + 1, d =>
    let step := gpio_interrupt_cb d
    let r := cbIter n step.1
    (r.1, step.2 :: r.2)

/-- The `while (cb_data.remaining_loops > 0)` wait of lines 232-235: the
main thread keeps waiting while the counter is positive, and each detected
edge invokes the callback once.  Each invocation decrements the counter by
exactly one, so from a nonnegative counter the loop ends after exactly
`remaining_loops` invocations; `fuel` is that termination measure (supplied
as `remaining_loops.toNat` by `async_phase`), keeping the model a
structural recursion.  Returns the final callback state, the accumulated
write trace and the number of callback invocations. -/
def async_wait_loop : Nat → GpioInterruptCbData → List GpioValue → Nat →
    GpioInterruptCbData × List GpioValue × Nat
  | 0, d, acc, n => (d, acc, n)
  | fuel + 1, d, acc, n =>
    if 0 < d.remaining_loops then
      let step := gpio_interrupt_cb d
      async_wait_loop fuel step.1 (acc ++ [step.2]) (n + 1)
    else
      (d, acc, n)

/-- The asynchronous phase from an initial callback state. -/
def async_phase (d : GpioInterruptCbData) :
    GpioInterruptCbData × List GpioValue × Nat :=
  async_wait_loop d.remaining_loops.toNat d [] 0

/-! ## Whole-program model of main (lines 149-239)

`Env` packages the program arguments and the abstract behaviour of the
library calls `main` reacts to. -/

structure Env where
  /-- `argv[1..]`: the command-line arguments after the program name. -/
  argv : List String
  /-- `ldx_gpio_get_kernel_number`: configured alias-to-line mapping. -/
  aliasMap : String → Int
  /-- Whether `ldx_gpio_request` for the input GPIO returns non-NULL. -/
  inputRequestOk : Bool
  /-- Whether `ldx_gpio_request` for the output GPIO returns non-NULL. -/
  outputRequestOk : Bool
  /-- Result of the i-th `ldx_gpio_wait_interrupt` call (blocking phase). -/
  blockRes : Nat → GpioIrqError
  /-- Whether `ldx_gpio_start_wait_interrupt` returns `EXIT_SUCCESS`. -/
  startAsyncOk : Bool

inductive Outcome
  /-- The process ran `exit`/`return` with the given status. -/
  | exited (code : Int)
  /-- The process was terminated by a signal's default disposition. -/
  | killed
  deriving DecidableEq, Repr

structure RunResult where
  outcome : Outcome
  /-- Number of `atexit(cleanup)` registrations performed. -/
  atexitCalls : Nat
  /-- Number of times the `cleanup` hook ran before the process ended. -/
  cleanupRuns : Nat
  /-- Blocking-phase `ldx_gpio_wait_interrupt` calls. -/
  waitCalls : Nat
  /-- Blocking-phase output toggles (`ldx_gpio_set_value` calls). -/
  blockToggles : Nat
  /-- Asynchronous-phase callback invocations observed before the main
  thread saw `remaining_loops <= 0`. -/
  asyncCallbacks : Nat
  deriving DecidableEq, Repr

/-- `main` from line 169 on, once the two identifiers are resolved.  Early
`exit`/`return` paths before line 175 end the process with no `atexit`
handler registered; failure returns after line 175 run `cleanup` once via
`atexit`, as does normal termination. -/
def mainWithIds (e : Env) (button led : Int) : RunResult :=
  if button < 0 ∨ led < 0 then
    -- "Unable to parse button and led GPIOs", before atexit registration
    { outcome := .exited 1, atexitCalls := 0, cleanupRuns := 0,
      waitCalls := 0, blockToggles := 0, asyncCallbacks := 0 }
  else if !e.inputRequestOk then
    -- atexit(cleanup) has run at line 175, so exit runs cleanup once
    { outcome := .exited 1, atexitCalls := 1, cleanupRuns := 1,
      waitCalls := 0, blockToggles := 0, asyncCallbacks := 0 }
  else if !e.outputRequestOk then
    { outcome := .exited 1, atexitCalls := 1, cleanupRuns := 1,
      waitCalls := 0, blockToggles := 0, asyncCallbacks := 0 }
  else
    let bs := blocking_phase ((List.range TEST_LOOPS).map e.blockRes)
      { output_value := .low, writes := [], waitCalls := 0 }
    if !e.startAsyncOk then
      { outcome := .exited 1, atexitCalls := 1, cleanupRuns := 1,
        waitCalls := bs.waitCalls, blockToggles := bs.writes.length,
        asyncCallbacks := 0 }
    else
      let ar := async_phase
        { value := bs.output_value, remaining_loops := (TEST_LOOPS : Int) }
      { outcome := .exited 0, atexitCalls := 1, cleanupRuns := 1,
        waitCalls := bs.waitCalls, blockToggles := bs.writes.length,
        asyncCallbacks := ar.2.2 }

/-- Big-step model of `main` (no signal delivery; signals are modelled
separately on `ProcState`). -/
def mainRun (e : Env) : RunResult :=
  match resolve_args e.aliasMap e.argv with
  | none =>
    -- usage_and_exit(name, EXIT_FAILURE), before atexit registration
    { outcome := .exited 1, atexitCalls := 0, cleanupRuns := 0,
      waitCalls := 0, blockToggles := 0, asyncCallbacks := 0 }
  | some (button, led) => mainWithIds e button led

/-- Decidable form of "the arguments are accepted": the `argc` dispatch
succeeds and both resolved identifiers are nonnegative (lines 156-172). -/
def argsOk (aliasMap : String → Int) (argv : List String) : Bool :=
  match resolve_args aliasMap argv with
  | some (button, led) => 0 ≤ button && 0 ≤ led
  | none => false

/-! ## Signals, exit and the cleanup hook (lines 65-100, 175-176)

The process-level exit machinery is modelled as explicit state: which
signals have the custom handler installed, whether `atexit(cleanup)` was
registered, and what `cleanup` has done. -/

inductive Sig
  | hup
  | intr
  | term
  deriving DecidableEq, Repr

inductive SigHandler
  /-- Default disposition: the process is terminated, `atexit` hooks do
  not run. -/
  | dfl
  /-- `sigaction_handler` installed by `register_signals`. -/
  | custom
  deriving DecidableEq, Repr

structure ProcState where
  handlers : Sig → SigHandler
  atexitRegistered : Bool
  cleanupRuns : Nat
  /-- `ldx_gpio_stop_wait_interrupt(gpio_input)` has been issued. -/
  asyncStopIssued : Bool
  /-- `ldx_gpio_free(gpio_input)` has been issued. -/
  inputFreed : Bool
  /-- `ldx_gpio_free(gpio_output)` has been issued. -/
  outputFreed : Bool
  terminated : Option Outcome

/-- `cleanup` (lines 65-73): stop the interrupt handler thread, then free
both GPIO lines. -/
def cleanup (st : ProcState) : ProcState :=
  { st with cleanupRuns := st.cleanupRuns + 1,
            asyncStopIssued := true, inputFreed := true, outputFreed := true }

/-- C `exit(code)`: run the registered `atexit` handlers (here at most the
single `cleanup` registration), then terminate. -/
def doExit (code : Int) (st : ProcState) : ProcState :=
  let st1 := if st.atexitRegistered then cleanup st else st
  { st1 with terminated := some (.exited code) }

/-- `sigaction_handler` (lines 80-84): `exit(EXIT_FAILURE)` regardless of
the signal number; `atexit` then executes `cleanup`. -/
def sigaction_handler (signum : Sig) (st : ProcState) : ProcState :=
  doExit 1 st

/-- Delivery of one of the three termination signals: the custom handler
runs if installed; otherwise the default disposition kills the process
without running `atexit` hooks. -/
def deliverSignal (s : Sig) (st : ProcState) : ProcState :=
  if st.handlers s = .custom then sigaction_handler s st
  else { st with terminated := some .killed }

/-- `register_signals` (lines 89-100): install `sigaction_handler` for
`SIGHUP`, `SIGINT` and `SIGTERM`. -/
def register_signals (st : ProcState) : ProcState :=
  { st with handlers := fun _ => .custom }

/-! ## Derived notions used to state the claims -/

/-- Number of successful wait results in a result list. -/
def countSucc (ws : List GpioIrqError) : Nat :=
  ws.countP (· == GpioIrqError.success)

/-- The alternating write trace produced by `k` toggles starting from
value `v`: the first written value is `toggle v`, and so on. -/
def altWrites (v : GpioValue) : Nat → List GpioValue
  | 0 => []
  | k + 1 => toggle v :: altWrites (toggle v) k

/-- The full sequence of values written to the output line across the run:
the blocking phase driven by the wait results `ws`, starting from the
requested `GPIO_OUTPUT_LOW` level (lines 152, 189), followed by `a`
invocations of the interrupt callback, whose state is initialized from the
blocking phase's final output value and `TEST_LOOPS` (lines 216-219). -/
def combinedWrites (ws : List GpioIrqError) (a : Nat) : List GpioValue :=
  let bs := blocking_phase ws
    { output_value := .low, writes := [], waitCalls := 0 }
  bs.writes ++
    (cbIter a { value := bs.output_value,
                remaining_loops := (TEST_LOOPS : Int) }).2

/-! ## Concrete environments and states used to instantiate the claims -/

/-- An alias mapping with distinct values for the two default aliases,
separating the two resolution orders. -/
def aliasMapSwap : String → Int := fun s =>
  if s = "USER_LED" then 10 else if s = "USER_BUTTON" then 20 else -1

/-- Valid arguments, library calls succeed, but every blocking wait
returns an error. -/
def envAllWaitsFail : Env :=
  { argv := [], aliasMap := fun _ => 5, inputRequestOk := true,
    outputRequestOk := true, blockRes := fun _ => .failure,
    startAsyncOk := true }

/-- Valid numeric arguments, library calls succeed, every blocking wait
times out. -/
def envTimeouts : Env :=
  { argv := ["3", "4"], aliasMap := fun _ => -1, inputRequestOk := true,
    outputRequestOk := true, blockRes := fun _ => .timeout,
    startAsyncOk := true }

/-- A fully successful run. -/
def envGood : Env :=
  { argv := [], aliasMap := fun _ => 3, inputRequestOk := true,
    outputRequestOk := true, blockRes := fun _ => .success,
    startAsyncOk := true }

/-- A run invoked with three arguments (C's `argc = 4`). -/
def envFourArgs : Env :=
  { argv := ["1", "2", "3"], aliasMap := fun _ => -1,
    inputRequestOk := true, outputRequestOk := true,
    blockRes := fun _ => .success, startAsyncOk := true }

/-- Process state right after line 176: `cleanup` registered with
`atexit`, all three signal handlers installed, nothing terminated yet. -/
def stAfterRegister : ProcState :=
  { handlers := fun _ => .custom, atexitRegistered := true,
    cleanupRuns := 0, asyncStopIssued := false, inputFreed := false,
    outputFreed := false, terminated := none }

/-- The blocking-loop state at entry of the loop (line 203). -/
def bsInit : BlockState :=
  { output_value := .low, writes := [], waitCalls := 0 }

/-! ## Helper lemmas -/

lemma altWrites_length (v : GpioValue) (k : Nat) : (altWrites v k).length = k := by
  induction k generalizing v with
  | zero => rfl
  | succ k ih => simp [altWrites, ih]

lemma altWrites_append (v : GpioValue) (a b : Nat) :
    altWrites v a ++ altWrites (toggle^[a] v) b = altWrites v (a + b) := by
  induction a generalizing v with
  | zero => simp [altWrites]
  | succ a ih =>
    have hn : a + 1 + b = (a + b) + 1 := by omega
    rw [hn]
    simp only [altWrites, List.cons_append, Function.iterate_succ_apply]
    rw [ih]

/-- What one blocking iteration and hence the whole blocking phase does:
every result consumes one wait call; only successful results toggle and
write. -/
lemma blocking_phase_spec (ws : List GpioIrqError) (s : BlockState) :
    blocking_phase ws s =
      { output_value := toggle^[countSucc ws] s.output_value,
        writes := s.writes ++ altWrites s.output_value (countSucc ws),
        waitCalls := s.waitCalls + ws.length } := by
  induction ws generalizing s with
  | nil => simp [blocking_phase, countSucc, altWrites]
  | cons w ws ih =>
    have h1 : blocking_phase (w :: ws) s = blocking_phase ws (blocking_iter s w) := rfl
    rw [h1, ih]
    by_cases hw : w = GpioIrqError.success
    · subst hw
      have hc : countSucc (GpioIrqError.success :: ws) = countSucc ws + 1 := by
        simp [countSucc, List.countP_cons]
      have hb : blocking_iter s GpioIrqError.success =
          { output_value := toggle s.output_value,
            writes := s.writes ++ [toggle s.output_value],
            waitCalls := s.waitCalls + 1 } := rfl
      rw [hc, hb]
      simp only [BlockState.mk.injEq]
      refine ⟨?_, ?_, ?_⟩
      · show toggle^[countSucc ws] (toggle s.output_value) =
          toggle^[countSucc ws + 1] s.output_value
        rw [Function.iterate_succ_apply]
      · show (s.writes ++ [toggle s.output_value]) ++
            altWrites (toggle s.output_value) (countSucc ws) =
          s.writes ++ altWrites s.output_value (countSucc ws + 1)
        rw [List.append_assoc]
        rfl
      · show s.waitCalls + 1 + ws.length =
          s.waitCalls + (GpioIrqError.success :: ws).length
        simp only [List.length_cons]
        omega
    · have hc : countSucc (w :: ws) = countSucc ws := by
        simp [countSucc, List.countP_cons, hw]
      have hb : blocking_iter s w =
          { output_value := s.output_value, writes := s.writes,
            waitCalls := s.waitCalls + 1 } := by
        unfold blocking_iter
        rw [if_neg hw]
      rw [hc, hb]
      simp only [BlockState.mk.injEq, List.length_cons]
      refine ⟨trivial, trivial, by omega⟩

/-- What `n` callback invocations do: `n` toggles, the counter drops by
`n`, and the alternating trace is written. -/
lemma cbIter_spec (n : Nat) (d : GpioInterruptCbData) :
    cbIter n d =
      ({ value := toggle^[n] d.value,
         remaining_loops := d.remaining_loops - n },
       altWrites d.value n) := by
  induction n generalizing d with
  | zero => simp [cbIter, altWrites]
  | succ n ih =>
    simp only [cbIter, gpio_interrupt_cb, ih, altWrites, Prod.mk.injEq,
               GpioInterruptCbData.mk.injEq]
    refine ⟨⟨?_, ?_⟩, trivial⟩
    · rw [Function.iterate_succ_apply]
    · omega

/-- The fuelled while-loop runs exactly `k` callback invocations when the
counter starts at `k` and the fuel covers it. -/
lemma async_wait_loop_spec (k : Nat) (fuel : Nat) (hf : k ≤ fuel)
    (d : GpioInterruptCbData) (acc : List GpioValue) (n : Nat)
    (hd : d.remaining_loops = (k : Int)) :
    async_wait_loop fuel d acc n = ((cbIter k d).1, acc ++ (cbIter k d).2, n + k) := by
  induction k generalizing fuel d acc n with
  | zero =>
    cases fuel with
    | zero => simp [async_wait_loop, cbIter]
    | succ fuel =>
      have : ¬ (0 < d.remaining_loops) := by rw [hd]; simp
      simp [async_wait_loop, this, cbIter]
  | succ k ih =>
    cases fuel with
    | zero => omega
    | succ fuel =>
      have hpos : 0 < d.remaining_loops := by rw [hd]; positivity
      have hstep : (gpio_interrupt_cb d).1.remaining_loops = (k : Int) := by
        show d.remaining_loops - 1 = (k : Int)
        rw [hd]
        push_cast
        ring
      simp only [async_wait_loop, if_pos hpos]
      rw [ih fuel (by omega) (gpio_interrupt_cb d).1 _ _ hstep]
      simp only [cbIter, Prod.mk.injEq]
      refine ⟨trivial, ?_, by omega⟩
      rw [List.append_assoc]
      rfl

/-- The asynchronous phase from a nonnegative counter `k` performs exactly
`k` callback invocations and then lets the main thread proceed. -/
lemma async_phase_spec (k : Nat) (d : GpioInterruptCbData)
    (hd : d.remaining_loops = (k : Int)) :
    async_phase d = ((cbIter k d).1, (cbIter k d).2, k) := by
  unfold async_phase
  have ht : d.remaining_loops.toNat = k := by rw [hd]; simp
  rw [ht, async_wait_loop_spec k k le_rfl d [] 0 hd]
  simp

lemma argsOk_iff (aliasMap : String → Int) (argv : List String) :
    argsOk aliasMap argv = true ↔
      ∃ b l, resolve_args aliasMap argv = some (b, l) ∧ 0 ≤ b ∧ 0 ≤ l := by
  unfold argsOk
  cases hr : resolve_args aliasMap argv with
  | none => simp
  | some bl =>
    obtain ⟨b, l⟩ := bl
    simp only [Bool.and_eq_true, decide_eq_true_eq, Option.some.injEq,
               Prod.mk.injEq]
    constructor
    · rintro ⟨hb, hl⟩
      exact ⟨b, l, ⟨rfl, rfl⟩, hb, hl⟩
    · rintro ⟨b', l', ⟨rfl, rfl⟩, hb, hl⟩
      exact ⟨hb, hl⟩

lemma mainRun_none (e : Env) (hr : resolve_args e.aliasMap e.argv = none) :
    mainRun e = { outcome := .exited 1, atexitCalls := 0, cleanupRuns := 0,
                  waitCalls := 0, blockToggles := 0, asyncCallbacks := 0 } := by
  unfold mainRun
  rw [hr]

lemma mainRun_some (e : Env) (b l : Int)
    (hr : resolve_args e.aliasMap e.argv = some (b, l)) :
    mainRun e = mainWithIds e b l := by
  unfold mainRun
  rw [hr]

/-- Rejected arguments end the process with status 1 before any
registration happened. -/
lemma mainRun_badargs (e : Env) (h : argsOk e.aliasMap e.argv = false) :
    mainRun e = { outcome := .exited 1, atexitCalls := 0, cleanupRuns := 0,
                  waitCalls := 0, blockToggles := 0, asyncCallbacks := 0 } := by
  cases hr : resolve_args e.aliasMap e.argv with
  | none => exact mainRun_none e hr
  | some bl =>
    obtain ⟨b, l⟩ := bl
    have hbl : b < 0 ∨ l < 0 := by
      by_contra hc
      push_neg at hc
      have ht : argsOk e.aliasMap e.argv = true :=
        (argsOk_iff _ _).mpr ⟨b, l, hr, hc.1, hc.2⟩
      rw [h] at ht
      exact absurd ht (by simp)
    rw [mainRun_some e b l hr]
    unfold mainWithIds
    rw [if_pos hbl]

/-- A failed `ldx_gpio_request` ends the process with status 1, after the
`atexit` registration, so `cleanup` runs once. -/
lemma mainRun_reqfail (e : Env) (h1 : argsOk e.aliasMap e.argv = true)
    (h2 : e.inputRequestOk = false ∨ e.outputRequestOk = false) :
    mainRun e = { outcome := .exited 1, atexitCalls := 1, cleanupRuns := 1,
                  waitCalls := 0, blockToggles := 0, asyncCallbacks := 0 } := by
  obtain ⟨b, l, hr, hb, hl⟩ := (argsOk_iff _ _).mp h1
  rw [mainRun_some e b l hr]
  unfold mainWithIds
  have hbl : ¬ (b < 0 ∨ l < 0) := by omega
  rw [if_neg hbl]
  cases hin : e.inputRequestOk with
  | false => simp
  | true =>
    have hout : e.outputRequestOk = false := by
      rcases h2 with h2 | h2
      · rw [hin] at h2; exact absurd h2 (by simp)
      · exact h2
    simp [hout]

/-- A failed `ldx_gpio_start_wait_interrupt` ends the process with status 1
after the full blocking phase; `cleanup` runs once via `atexit`. -/
lemma mainRun_startfail (e : Env) (h1 : argsOk e.aliasMap e.argv = true)
    (h2 : e.inputRequestOk = true) (h3 : e.outputRequestOk = true)
    (h4 : e.startAsyncOk = false) :
    mainRun e = { outcome := .exited 1, atexitCalls := 1, cleanupRuns := 1,
                  waitCalls := TEST_LOOPS,
                  blockToggles :=
                    countSucc ((List.range TEST_LOOPS).map e.blockRes),
                  asyncCallbacks := 0 } := by
  obtain ⟨b, l, hr, hb, hl⟩ := (argsOk_iff _ _).mp h1
  rw [mainRun_some e b l hr]
  unfold mainWithIds
  have hbl : ¬ (b < 0 ∨ l < 0) := by omega
  rw [if_neg hbl]
  simp only [h2, h3, h4, Bool.not_true, Bool.not_false, Bool.false_eq_true,
             if_false, if_true]
  rw [blocking_phase_spec]
  simp [altWrites_length]

/-- The fully successful run: status 0 after six blocking wait calls and
six asynchronous callback invocations; `cleanup` runs once at exit. -/
lemma mainRun_happy (e : Env) (h1 : argsOk e.aliasMap e.argv = true)
    (h2 : e.inputRequestOk = true) (h3 : e.outputRequestOk = true)
    (h4 : e.startAsyncOk = true) :
    mainRun e = { outcome := .exited 0, atexitCalls := 1, cleanupRuns := 1,
                  waitCalls := TEST_LOOPS,
                  blockToggles :=
                    countSucc ((List.range TEST_LOOPS).map e.blockRes),
                  asyncCallbacks := TEST_LOOPS } := by
  obtain ⟨b, l, hr, hb, hl⟩ := (argsOk_iff _ _).mp h1
  rw [mainRun_some e b l hr]
  unfold mainWithIds
  have hbl : ¬ (b < 0 ∨ l < 0) := by omega
  rw [if_neg hbl]
  simp only [h2, h3, h4, Bool.not_true, Bool.false_eq_true, if_false]
  rw [blocking_phase_spec, async_phase_spec TEST_LOOPS _ rfl]
  simp [altWrites_length]

/-! ### strtol / parse_argument lemmas -/

lemma strtolClamp_converted (v : Int) (rest : List Char) :
    (strtolClamp v rest).converted = true := by
  unfold strtolClamp
  split
  · rfl
  split
  · rfl
  · rfl

lemma strtolClamp_inrange (v : Int) (rest : List Char)
    (h1 : LONG_MIN ≤ v) (h2 : v ≤ LONG_MAX) :
    strtolClamp v rest =
      { value := v, erange := false, converted := true, rest := rest } := by
  unfold strtolClamp
  rw [if_neg (by omega), if_neg (by omega)]

lemma strtolClamp_overflow (v : Int) (rest : List Char)
    (h : v < LONG_MIN ∨ LONG_MAX < v) :
    (strtolClamp v rest).erange = true := by
  unfold strtolClamp
  rcases h with h | h
  · have : ¬ LONG_MAX < v := by unfold LONG_MAX LONG_MIN at *; omega
    rw [if_neg this, if_pos h]
  · rw [if_pos h]

/-- Every `strtol10` result is either the no-conversion result or a
clamped conversion. -/
lemma strtol10_cases (s : List Char) :
    strtol10 s = { value := 0, erange := false, converted := false, rest := s } ∨
      ∃ v rest, strtol10 s = strtolClamp v rest := by
  simp only [strtol10]
  repeat' split
  all_goals first
  | (left; rfl)
  | (right; exact ⟨_, _, rfl⟩)

lemma strtol10_erange_false_of_not_converted (s : List Char)
    (h : (strtol10 s).converted = false) : (strtol10 s).erange = false := by
  rcases strtol10_cases s with hc | ⟨v, rest, hc⟩
  · rw [hc]
  · rw [hc, strtolClamp_converted] at h
    exact absurd h (by simp)

/-- Controlled evaluation of `strtol10` from facts about its intermediate
values. -/
lemma strtol10_eval (s s1 : List Char) (sign : Int) (s2 ds : List Char)
    (h1 : s.dropWhile isSpaceC = s1)
    (hsig : (if s1.head? = some '-' then (-1 : Int) else 1) = sign)
    (hs2 : (if s1.head? = some '-' ∨ s1.head? = some '+' then s1.tail else s1)
      = s2)
    (hds : s2.takeWhile Char.isDigit = ds)
    (hne : ds.isEmpty = false) :
    strtol10 s =
      strtolClamp (sign * (digitsToNat ds : Int))
        (s2.dropWhile Char.isDigit) := by
  simp only [strtol10, h1, hsig, hs2, hds, hne]
  simp

lemma not_space_of_digit {c : Char} (h : c.isDigit = true) :
    isSpaceC c = false := by
  unfold isSpaceC
  simp only [Bool.or_eq_false_iff, decide_eq_false_iff_not]
  refine ⟨⟨⟨⟨⟨?_, ?_⟩, ?_⟩, ?_⟩, ?_⟩, ?_⟩ <;>
    (rintro rfl; exact absurd h (by decide))

lemma takeWhile_digits_append (ds rest : List Char)
    (hds : ds.all Char.isDigit = true)
    (hr : ∀ c, rest.head? = some c → c.isDigit = false) :
    (ds ++ rest).takeWhile Char.isDigit = ds ∧
      (ds ++ rest).dropWhile Char.isDigit = rest := by
  induction ds with
  | nil =>
    simp only [List.nil_append]
    cases rest with
    | nil => simp
    | cons c t =>
      have hc := hr c rfl
      simp [List.takeWhile_cons, List.dropWhile_cons, hc]
  | cons d ds ih =>
    simp only [List.all_cons, Bool.and_eq_true] at hds
    obtain ⟨hd, hds⟩ := hds
    have h := ih hds
    simp [List.takeWhile_cons, List.dropWhile_cons, hd, h.1, h.2]

/-- `strtol` on a pure digit string followed by a non-digit remainder:
conversion succeeds with the digits' value (clamped), `endptr` points at
the remainder. -/
lemma strtol10_digits (d : Char) (ds rest : List Char)
    (hd : d.isDigit = true) (hall : ds.all Char.isDigit = true)
    (hr : ∀ c, rest.head? = some c → c.isDigit = false) :
    strtol10 ((d :: ds) ++ rest) =
      strtolClamp (digitsToNat (d :: ds)) rest := by
  have hsp : isSpaceC d = false := not_space_of_digit hd
  have hdm : d ≠ '-' := by rintro rfl; exact absurd hd (by decide)
  have hdp : d ≠ '+' := by rintro rfl; exact absurd hd (by decide)
  have htw := takeWhile_digits_append (d :: ds) rest
    (by simp [List.all_cons, hd, hall]) hr
  rw [List.cons_append]
  rw [strtol10_eval (d :: (ds ++ rest)) (d :: (ds ++ rest)) 1
      (d :: (ds ++ rest)) (d :: ds)
      (by simp [List.dropWhile_cons, hsp])
      (by simp [hdm])
      (by simp [hdm, hdp])
      (by rw [← List.cons_append]; exact htw.1)
      rfl]
  rw [← List.cons_append, htw.2, one_mul]

/-- `strtol` on a minus sign, digits, then a non-digit remainder. -/
lemma strtol10_neg_digits (d : Char) (ds rest : List Char)
    (hd : d.isDigit = true) (hall : ds.all Char.isDigit = true)
    (hr : ∀ c, rest.head? = some c → c.isDigit = false) :
    strtol10 ('-' :: ((d :: ds) ++ rest)) =
      strtolClamp (-1 * (digitsToNat (d :: ds) : Int)) rest := by
  have htw := takeWhile_digits_append (d :: ds) rest
    (by simp [List.all_cons, hd, hall]) hr
  rw [strtol10_eval ('-' :: ((d :: ds) ++ rest)) ('-' :: ((d :: ds) ++ rest))
      (-1) ((d :: ds) ++ rest) (d :: ds)
      (by simp [List.dropWhile_cons, show isSpaceC '-' = false from rfl])
      (by simp)
      (by simp)
      htw.1
      rfl]
  rw [htw.2]

/-- `strtol` on a plus sign, digits, then a non-digit remainder. -/
lemma strtol10_plus_digits (d : Char) (ds rest : List Char)
    (hd : d.isDigit = true) (hall : ds.all Char.isDigit = true)
    (hr : ∀ c, rest.head? = some c → c.isDigit = false) :
    strtol10 ('+' :: ((d :: ds) ++ rest)) =
      strtolClamp (digitsToNat (d :: ds)) rest := by
  have htw := takeWhile_digits_append (d :: ds) rest
    (by simp [List.all_cons, hd, hall]) hr
  have hpm : ('+' : Char) ≠ '-' := by decide
  rw [strtol10_eval ('+' :: ((d :: ds) ++ rest)) ('+' :: ((d :: ds) ++ rest))
      1 ((d :: ds) ++ rest) (d :: ds)
      (by simp [List.dropWhile_cons, show isSpaceC '+' = false from rfl])
      (by simp [hpm])
      (by simp)
      htw.1
      rfl]
  rw [htw.2, one_mul]

lemma head_cons_ne_of_ne {c c' : Char} (h : c ≠ c') (tl : List Char) :
    ¬ ((c :: tl).head? = some c') := by
  rw [List.head?_cons]
  intro hcon
  injection hcon with h'
  exact h h'

/-- A string accepted by `decimalValue`, followed by any remainder that
does not begin with a digit, is converted by `strtol` to exactly the
denoted value (clamped), with `endptr` at the remainder. -/
lemma strtol10_decimalValue (t : String) (v : Int) (rest : List Char)
    (ht : decimalValue t = some v)
    (hr : ∀ c, rest.head? = some c → c.isDigit = false) :
    strtol10 (t.data ++ rest) = strtolClamp v rest := by
  simp only [decimalValue] at ht
  cases hcs : t.data with
  | nil =>
    rw [hcs] at ht
    simp at ht
  | cons c tl =>
    rw [hcs] at ht
    by_cases hm : c = '-'
    · subst hm
      rw [if_pos (Or.inl (show ('-' :: tl).head? = some '-' from rfl)),
          if_pos (show ('-' :: tl).head? = some '-' from rfl),
          List.tail_cons] at ht
      split at ht
      · next hcond =>
        obtain ⟨hne, hall⟩ := hcond
        obtain ⟨d, ds', rfl⟩ : ∃ d ds', tl = d :: ds' := by
          cases tl with
          | nil => exact absurd rfl hne
          | cons d ds' => exact ⟨d, ds', rfl⟩
        simp only [List.all_cons, Bool.and_eq_true] at hall
        injection ht with hv
        rw [List.cons_append,
            strtol10_neg_digits d ds' rest hall.1 hall.2 hr, hv]
      · exact absurd ht (by simp)
    · by_cases hp : c = '+'
      · subst hp
        rw [if_pos (Or.inr (show ('+' :: tl).head? = some '+' from rfl)),
            if_neg (head_cons_ne_of_ne (show ('+' : Char) ≠ '-' from by decide) tl),
            List.tail_cons] at ht
        split at ht
        · next hcond =>
          obtain ⟨hne, hall⟩ := hcond
          obtain ⟨d, ds', rfl⟩ : ∃ d ds', tl = d :: ds' := by
            cases tl with
            | nil => exact absurd rfl hne
            | cons d ds' => exact ⟨d, ds', rfl⟩
          simp only [List.all_cons, Bool.and_eq_true] at hall
          injection ht with hv
          rw [List.cons_append,
              strtol10_plus_digits d ds' rest hall.1 hall.2 hr, ← hv,
              one_mul]
        · exact absurd ht (by simp)
      · rw [if_neg (show ¬ (((c :: tl).head? = some '-') ∨
              ((c :: tl).head? = some '+')) from by
                rintro (hcon | hcon)
                · exact head_cons_ne_of_ne hm tl hcon
                · exact head_cons_ne_of_ne hp tl hcon),
            if_neg (head_cons_ne_of_ne hm tl)] at ht
        split at ht
        · next hcond =>
          obtain ⟨hne, hall⟩ := hcond
          simp only [List.all_cons, Bool.and_eq_true] at hall
          injection ht with hv
          rw [strtol10_digits c tl rest hall.1 hall.2 hr, ← hv, one_mul]
        · exact absurd ht (by simp)

/-- The `long`-to-`int` narrowing is the identity on values representable
in `int`. -/
lemma wrapToInt_eq_self (v : Int) (h1 : INT_MIN ≤ v) (h2 : v ≤ INT_MAX) :
    wrapToInt v = v := by
  unfold wrapToInt
  unfold INT_MIN at h1
  unfold INT_MAX at h2
  norm_num at h1 h2 ⊢
  split <;> omega

lemma LONG_MIN_lt_INT_MIN : LONG_MIN < INT_MIN := by decide

lemma INT_MAX_lt_LONG_MAX : INT_MAX < LONG_MAX := by decide

/-- `parse_argument` on an entirely numeric string whose value fits in
`long`: the conversion succeeds and the value is narrowed to `int`. -/
lemma parse_argument_decimal_long (a : String → Int) (s : String) (v : Int)
    (h : decimalValue s = some v) (h1 : LONG_MIN ≤ v) (h2 : v ≤ LONG_MAX) :
    parse_argument a s = wrapToInt v := by
  unfold parse_argument
  have hst : strtol10 s.data = strtolClamp v [] := by
    have hx := strtol10_decimalValue s v [] h (by intro c hc; simp at hc)
    rw [List.append_nil] at hx
    exact hx
  rw [hst, strtolClamp_inrange v [] h1 h2]
  simp

/-- `parse_argument` on an entirely numeric string whose value fits in
`int` returns the value unchanged. -/
lemma parse_argument_decimal_int (a : String → Int) (s : String) (v : Int)
    (h : decimalValue s = some v) (h1 : INT_MIN ≤ v) (h2 : v ≤ INT_MAX) :
    parse_argument a s = v := by
  rw [parse_argument_decimal_long a s v h
        (le_of_lt (lt_of_lt_of_le LONG_MIN_lt_INT_MIN h1))
        (le_of_lt (lt_of_le_of_lt h2 INT_MAX_lt_LONG_MAX)),
      wrapToInt_eq_self v h1 h2]

/-- `parse_argument` on a numeric string overflowing `long` returns `-1`. -/
lemma parse_argument_decimal_overflow (a : String → Int) (s : String)
    (v : Int) (h : decimalValue s = some v)
    (hov : v < LONG_MIN ∨ LONG_MAX < v) :
    parse_argument a s = -1 := by
  unfold parse_argument
  have hst : strtol10 s.data = strtolClamp v [] := by
    have hx := strtol10_decimalValue s v [] h (by intro c hc; simp at hc)
    rw [List.append_nil] at hx
    exact hx
  rw [hst, if_pos (strtolClamp_overflow v [] hov)]

/-- `parse_argument` falls back to the alias lookup exactly when `strtol`
performed no conversion (`endptr == argv`). -/
lemma parse_argument_alias (a : String → Int) (s : String)
    (h : (strtol10 s.data).converted = false) :
    parse_argument a s = a s := by
  unfold parse_argument
  rw [if_neg (by simp [strtol10_erange_false_of_not_converted s.data h]),
      if_pos (by simp [h])]

/-- `parse_argument` on a numeric prefix followed by non-numeric leftover
returns the prefix's (narrowed) value, not an error. -/
lemma parse_argument_leftover (a : String → Int) (t r : String) (v : Int)
    (c : Char) (ht : decimalValue t = some v)
    (h1 : LONG_MIN ≤ v) (h2 : v ≤ LONG_MAX)
    (hc : r.data.head? = some c) (hcd : c.isDigit = false) :
    parse_argument a (t ++ r) = wrapToInt v := by
  unfold parse_argument
  have hst : strtol10 ((t ++ r).data) = strtolClamp v r.data := by
    rw [String.data_append]
    refine strtol10_decimalValue t v r.data ht ?_
    intro c' hc'
    rw [hc] at hc'
    injection hc' with h'
    rw [← h']
    exact hcd
  rw [hst, strtolClamp_inrange v _ h1 h2]
  simp

/-! ## Claim theorems -/

/-- C1 (counterexample to the claim as stated): the input `"5x"` has
non-numeric leftover after the digit `5`, yet `parse_argument` returns the
parsed prefix `5` — it does not reject leftover input with the error value
`-1`. -/
theorem C1_counterexample :
    parse_argument (fun _ => -1) "5x" = 5 ∧ (5 : Int) ≠ -1 := by
  constructor
  · decide
  · decide

/-- C1 (amended): for every valid base-10 numeric string whose value is
representable in `int`, `parse_argument` returns the parsed integer
unchanged; a numeric string overflowing `long` is rejected with `-1`; a
numeric value representable in `long` is narrowed to `int` two's-complement
on return; non-numeric leftover after a numeric prefix is NOT rejected —
the parsed prefix's (narrowed) value is returned; and a string on which
`strtol` performs no conversion is resolved by lookup in the configured
alias mapping. -/
theorem C1_parse_resolution (a : String → Int) (s t r : String) (v : Int)
    (c : Char) :
    (decimalValue s = some v → INT_MIN ≤ v → v ≤ INT_MAX →
      parse_argument a s = v) ∧
    (decimalValue s = some v → (v < LONG_MIN ∨ LONG_MAX < v) →
      parse_argument a s = -1) ∧
    (decimalValue s = some v → LONG_MIN ≤ v → v ≤ LONG_MAX →
      parse_argument a s = wrapToInt v) ∧
    (decimalValue t = some v → LONG_MIN ≤ v → v ≤ LONG_MAX →
      r.data.head? = some c → c.isDigit = false →
      parse_argument a (t ++ r) = wrapToInt v) ∧
    ((strtol10 s.data).converted = false → parse_argument a s = a s) := by
  refine ⟨?_, ?_, ?_, ?_, ?_⟩
  · exact fun h h1 h2 => parse_argument_decimal_int a s v h h1 h2
  · exact fun h hov => parse_argument_decimal_overflow a s v h hov
  · exact fun h h1 h2 => parse_argument_decimal_long a s v h h1 h2
  · exact fun h h1 h2 hc hcd =>
      parse_argument_leftover a t r v c h h1 h2 hc hcd
  · exact fun h => parse_argument_alias a s h

/-- C1 witness: the amended theorem applied at concrete inputs. -/
theorem C1_witness :
    parse_argument (fun _ => -1) "42" = 42 ∧
    parse_argument (fun _ => -1) "9223372036854775808" = -1 ∧
    parse_argument (fun _ => -1) "2147483648" = wrapToInt 2147483648 ∧
    parse_argument (fun _ => -1) ("12" ++ "abc") = wrapToInt 12 ∧
    parse_argument (fun _ => -1) "USER_LED" = -1 :=
  ⟨(C1_parse_resolution (fun _ => -1) "42" "" "" 42 'a').1
      (by decide) (by decide) (by decide),
   (C1_parse_resolution (fun _ => -1) "9223372036854775808" "" ""
      9223372036854775808 'a').2.1 (by decide) (by decide),
   (C1_parse_resolution (fun _ => -1) "2147483648" "" "" 2147483648 'a').2.2.1
      (by decide) (by decide) (by decide),
   (C1_parse_resolution (fun _ => -1) "" "12" "abc" 12 'a').2.2.2.1
      (by decide) (by decide) (by decide) (by decide) (by decide),
   (C1_parse_resolution (fun _ => -1) "USER_LED" "" "" 0 'a').2.2.2.2
      (by decide)⟩

/-- C2: starting from an output line requested at logical Low, across 6
detected edge events split in any way between the blocking-phase loop and
the callback phase, the written output values alternate
High, Low, High, Low, High, Low — i.e. after the k-th successful event the
value is High exactly when k is odd. -/
theorem C2_alternation (ws : List GpioIrqError) (a : Nat)
    (h : countSucc ws + a = TEST_LOOPS) :
    combinedWrites ws a = [.high, .low, .high, .low, .high, .low] ∧
    (∀ k, 1 ≤ k → k ≤ TEST_LOOPS →
      ((combinedWrites ws a).getD (k - 1) .low = .high ↔ k % 2 = 1)) := by
  have hlist : combinedWrites ws a = [.high, .low, .high, .low, .high, .low] := by
    unfold combinedWrites
    rw [blocking_phase_spec]
    simp only [cbIter_spec, List.nil_append]
    rw [altWrites_append, h]
    rfl
  refine ⟨hlist, ?_⟩
  intro k hk1 hk6
  have hk6' : k ≤ 6 := hk6
  rw [hlist]
  interval_cases k <;> decide

/-- C2 witness: three successful blocking events followed by three
callback invocations. -/
theorem C2_witness :
    combinedWrites
        (List.replicate 3 GpioIrqError.success ++
          List.replicate 3 GpioIrqError.failure) 3 =
      [.high, .low, .high, .low, .high, .low] :=
  (C2_alternation _ 3 (by decide)).1

/-- C3 (counterexample to the claim as stated): a run in which every
blocking wait call fails still exits with `EXIT_SUCCESS`, although zero
(not `TEST_LOOPS`) button-press cycles were completed in blocking mode. -/
theorem C3_counterexample :
    (mainRun envAllWaitsFail).outcome = .exited 0 ∧
    (mainRun envAllWaitsFail).blockToggles = 0 ∧ (0 : Nat) ≠ TEST_LOOPS := by
  refine ⟨by decide, by decide, by decide⟩

/-- C3 (amended): the program exits 1 on malformed arguments (wrong count
or unparseable/negative identifier), on either failed GPIO request, and on
a failed async start; it exits 0 exactly when argument resolution and all
three library calls succeed, and then only after performing all
`TEST_LOOPS` blocking wait iterations (button-press cycles when the waits
succeed) and `TEST_LOOPS` asynchronous button-press cycles. -/
theorem C3_exit_codes (e : Env) :
    (argsOk e.aliasMap e.argv = false → (mainRun e).outcome = .exited 1) ∧
    (e.inputRequestOk = false ∨ e.outputRequestOk = false →
      (mainRun e).outcome = .exited 1) ∧
    (e.startAsyncOk = false → (mainRun e).outcome = .exited 1) ∧
    ((mainRun e).outcome = .exited 0 ↔
      argsOk e.aliasMap e.argv = true ∧ e.inputRequestOk = true ∧
        e.outputRequestOk = true ∧ e.startAsyncOk = true) ∧
    ((mainRun e).outcome = .exited 0 →
      (mainRun e).waitCalls = TEST_LOOPS ∧
        (mainRun e).asyncCallbacks = TEST_LOOPS) := by
  by_cases h1 : argsOk e.aliasMap e.argv = true
  · cases hin : e.inputRequestOk with
    | false =>
      rw [mainRun_reqfail e h1 (Or.inl hin)]
      simp [hin]
    | true =>
      cases hout : e.outputRequestOk with
      | false =>
        rw [mainRun_reqfail e h1 (Or.inr hout)]
        simp [hout]
      | true =>
        cases hst : e.startAsyncOk with
        | false =>
          rw [mainRun_startfail e h1 hin hout hst]
          simp [hst]
        | true =>
          rw [mainRun_happy e h1 hin hout hst]
          simp [h1, hin, hout, hst]
  · have h1f : argsOk e.aliasMap e.argv = false := by
      simpa using h1
    rw [mainRun_badargs e h1f]
    simp [h1f]

/-- C3 witness: concrete runs hitting the failure path and the success
path of the amended statement. -/
theorem C3_witness :
    (mainRun envFourArgs).outcome = .exited 1 ∧
    (mainRun envGood).outcome = .exited 0 :=
  ⟨(C3_exit_codes envFourArgs).1 (by decide),
   (C3_exit_codes envGood).2.2.2.1.mpr ⟨by decide, rfl, rfl, rfl⟩⟩

/-- C4: each invocation of the interrupt callback toggles the stored
output value (High becomes Low and vice versa), writes the toggled value to
the output line, and decrements `remaining_loops` by exactly one; hence 6
invocations starting from `TEST_LOOPS = 6` leave the counter at 0 and the
main thread's wait condition `remaining_loops > 0` false. -/
theorem C4_callback (d : GpioInterruptCbData) (v : GpioValue) :
    ((gpio_interrupt_cb d).1.value = toggle d.value ∧
     (gpio_interrupt_cb d).2 = toggle d.value ∧
     (gpio_interrupt_cb d).1.remaining_loops = d.remaining_loops - 1) ∧
    ((cbIter TEST_LOOPS
        { value := v, remaining_loops := (TEST_LOOPS : Int) }).1.remaining_loops
        = 0 ∧
     ¬ (0 < (cbIter TEST_LOOPS
        { value := v,
          remaining_loops := (TEST_LOOPS : Int) }).1.remaining_loops)) := by
  refine ⟨⟨rfl, rfl, rfl⟩, ?_⟩
  cases v <;> exact ⟨by decide, by decide⟩

/-- C5: `register_signals` installs the custom handler for all three
termination signals; once the handler is installed and `cleanup` is
registered, delivering any of the three signals terminates the process via
`exit(EXIT_FAILURE)` with the cleanup hook (stop async wait, free both
lines) run exactly once; `atexit(cleanup)` is registered at most once in
any run and exactly once in every run that passes argument validation; and
such runs also invoke the hook exactly once on their own (normal or
failure) exit. -/
theorem C5_cleanup_hook :
    (∀ st : ProcState, ∀ s : Sig,
      (register_signals st).handlers s = SigHandler.custom) ∧
    (∀ (s : Sig) (st : ProcState), st.handlers s = SigHandler.custom →
      st.atexitRegistered = true → st.cleanupRuns = 0 →
      (deliverSignal s st).terminated = some (.exited 1) ∧
      (deliverSignal s st).cleanupRuns = 1 ∧
      (deliverSignal s st).asyncStopIssued = true ∧
      (deliverSignal s st).inputFreed = true ∧
      (deliverSignal s st).outputFreed = true) ∧
    (∀ e : Env, (mainRun e).atexitCalls ≤ 1) ∧
    (∀ e : Env, argsOk e.aliasMap e.argv = true →
      (mainRun e).atexitCalls = 1 ∧ (mainRun e).cleanupRuns = 1) := by
  refine ⟨fun st s => rfl, ?_, ?_, ?_⟩
  · intro s st h1 h2 h3
    unfold deliverSignal
    rw [if_pos h1]
    unfold sigaction_handler doExit
    rw [h2]
    simp [cleanup, h3]
  · intro e
    cases hr : resolve_args e.aliasMap e.argv with
    | none =>
      rw [mainRun_none e hr]
      decide
    | some bl =>
      obtain ⟨b, l⟩ := bl
      rw [mainRun_some e b l hr]
      unfold mainWithIds
      repeat' split
      all_goals first
      | exact Nat.le_refl 1
      | exact Nat.zero_le 1
  · intro e h1
    cases hin : e.inputRequestOk with
    | false =>
      rw [mainRun_reqfail e h1 (Or.inl hin)]
      exact ⟨rfl, rfl⟩
    | true =>
      cases hout : e.outputRequestOk with
      | false =>
        rw [mainRun_reqfail e h1 (Or.inr hout)]
        exact ⟨rfl, rfl⟩
      | true =>
        cases hst : e.startAsyncOk with
        | false =>
          rw [mainRun_startfail e h1 hin hout hst]
          exact ⟨rfl, rfl⟩
        | true =>
          rw [mainRun_happy e h1 hin hout hst]
          exact ⟨rfl, rfl⟩

/-- C5 witness: delivering `SIGINT` right after registration runs the hook
once and exits 1; a fully successful run also runs the hook once. -/
theorem C5_witness :
    (deliverSignal Sig.intr stAfterRegister).terminated =
        some (Outcome.exited 1) ∧
    (deliverSignal Sig.intr stAfterRegister).cleanupRuns = 1 ∧
    (mainRun envGood).cleanupRuns = 1 :=
  ⟨(C5_cleanup_hook.2.1 Sig.intr stAfterRegister rfl rfl rfl).1,
   (C5_cleanup_hook.2.1 Sig.intr stAfterRegister rfl rfl rfl).2.1,
   (C5_cleanup_hook.2.2.2 envGood (by decide)).2⟩

/-- C6: a blocking wait result other than success leaves the loop state
unchanged apart from counting the wait call — no toggle, no write — and the
program neither exits nor aborts the loop: with valid arguments and
successful library calls it completes all `TEST_LOOPS` wait iterations and
ultimately exits 0, whatever the wait results were. -/
theorem C6_nonsuccess (w : GpioIrqError) (s : BlockState) (e : Env) :
    (w ≠ GpioIrqError.success →
      blocking_iter s w = { s with waitCalls := s.waitCalls + 1 }) ∧
    (argsOk e.aliasMap e.argv = true → e.inputRequestOk = true →
      e.outputRequestOk = true → e.startAsyncOk = true →
      (mainRun e).outcome = .exited 0 ∧
        (mainRun e).waitCalls = TEST_LOOPS) := by
  constructor
  · intro hw
    unfold blocking_iter
    rw [if_neg hw]
  · intro h1 h2 h3 h4
    rw [mainRun_happy e h1 h2 h3 h4]
    exact ⟨rfl, rfl⟩

/-- C6 witness: a timeout iteration is a no-op apart from the wait-call
count, and a run whose blocking waits all time out still exits 0 after 6
wait calls. -/
theorem C6_witness :
    blocking_iter bsInit GpioIrqError.timeout =
      { bsInit with waitCalls := 1 } ∧
    (mainRun envTimeouts).outcome = .exited 0 ∧
    (mainRun envTimeouts).waitCalls = TEST_LOOPS :=
  ⟨(C6_nonsuccess GpioIrqError.timeout bsInit envTimeouts).1 (by decide),
   ((C6_nonsuccess GpioIrqError.timeout bsInit envTimeouts).2
      (by decide) rfl rfl rfl).1,
   ((C6_nonsuccess GpioIrqError.timeout bsInit envTimeouts).2
      (by decide) rfl rfl rfl).2⟩

/-- C7 (counterexample to the claim as stated): with an alias mapping that
distinguishes the two names, the no-argument run resolves the button input
from `"USER_BUTTON"` (20) and the LED output from `"USER_LED"` (10) — not
`"USER_LED"` for the input and `"USER_BUTTON"` for the output as claimed. -/
theorem C7_counterexample :
    resolve_args aliasMapSwap [] = some (20, 10) ∧
    aliasMapSwap "USER_LED" = 10 ∧ aliasMapSwap "USER_BUTTON" = 20 ∧
    some ((20 : Int), (10 : Int)) ≠
      some ((aliasMapSwap "USER_LED"), (aliasMapSwap "USER_BUTTON")) := by
  refine ⟨by decide, by decide, by decide, by decide⟩

/-- C7 (amended): when invoked with no arguments, the program defaults the
button input `<gpio_in>` to the configured alias `"USER_BUTTON"` and the
LED output `<gpio_out>` to `"USER_LED"`, resolving each through the alias
mapping. -/
theorem C7_default_aliases (aliasMap : String → Int) :
    resolve_args aliasMap [] =
      some (parse_argument aliasMap DEFAULT_USER_BUTTON_ALIAS,
            parse_argument aliasMap DEFAULT_USER_LED_ALIAS) ∧
    parse_argument aliasMap DEFAULT_USER_BUTTON_ALIAS =
      aliasMap "USER_BUTTON" ∧
    parse_argument aliasMap DEFAULT_USER_LED_ALIAS = aliasMap "USER_LED" := by
  refine ⟨rfl, ?_, ?_⟩
  · exact parse_argument_alias aliasMap DEFAULT_USER_BUTTON_ALIAS (by decide)
  · exact parse_argument_alias aliasMap DEFAULT_USER_LED_ALIAS (by decide)

/-- C9: when the argument count is neither 1 nor 3, or a resolved line
identifier is negative, the process exits 1 before `atexit(cleanup)` is
reached, so the cleanup hook is never registered nor invoked. -/
theorem C9_early_exit (e : Env) (h : argsOk e.aliasMap e.argv = false) :
    (mainRun e).atexitCalls = 0 ∧ (mainRun e).cleanupRuns = 0 ∧
      (mainRun e).outcome = .exited 1 := by
  rw [mainRun_badargs e h]
  exact ⟨rfl, rfl, rfl⟩

/-- C9 witness: a run with three command-line arguments (`argc = 4`). -/
theorem C9_witness :
    (mainRun envFourArgs).atexitCalls = 0 ∧
    (mainRun envFourArgs).cleanupRuns = 0 ∧
    (mainRun envFourArgs).outcome = .exited 1 :=
  C9_early_exit envFourArgs (by decide)

/-- C10: in any run reaching the blocking phase, exactly `TEST_LOOPS`
blocking wait calls are made and the number of output toggles equals the
number of successful wait results — so a run can finish the phase (and
still exit 0) with fewer than `TEST_LOOPS` toggles. -/
theorem C10_blocking_counts (e : Env) :
    (argsOk e.aliasMap e.argv = true → e.inputRequestOk = true →
      e.outputRequestOk = true → e.startAsyncOk = true →
      (mainRun e).waitCalls = TEST_LOOPS ∧
      (mainRun e).blockToggles =
        countSucc ((List.range TEST_LOOPS).map e.blockRes)) ∧
    (∃ e2 : Env, argsOk e2.aliasMap e2.argv = true ∧
      (mainRun e2).outcome = .exited 0 ∧
      (mainRun e2).blockToggles < TEST_LOOPS) := by
  constructor
  · intro h1 h2 h3 h4
    rw [mainRun_happy e h1 h2 h3 h4]
    exact ⟨rfl, rfl⟩
  · exact ⟨envAllWaitsFail, by decide, by decide, by decide⟩

/-- C10 witness: the count equations at a concrete run whose waits all
time out. -/
theorem C10_witness :
    (mainRun envTimeouts).waitCalls = TEST_LOOPS ∧
    (mainRun envTimeouts).blockToggles =
      countSucc ((List.range TEST_LOOPS).map envTimeouts.blockRes) :=
  (C10_blocking_counts envTimeouts).1 (by decide) rfl rfl rfl

end ApixGpio
